import Mathlib

/-!
Verification of the openraft binary archival core: the `SerdeInstant`
instant-to-portable-timestamp transcoder (conventional serde format and
fixed-layout rkyv format), the `BoxedErrorSource` size-bounded error wrapper,
and the `RPCTypes` protocol-category tag.

Modelling conventions.  A monotonic `Instant` reading and a wall-clock
`SystemTime` are both modelled as `Int` nanosecond counts; the code only ever
uses their ordering and their sum and difference against a `Duration`, so
this is faithful.
The two clock samples taken inside each encode/decode call are passed as
explicit arguments (`now` for `I::now()`, `sys_now` for `SystemTime::now()`),
which makes each transcoding direction the pure function of
`(value, now_monotonic, now_wall)` that the code computes.  A Rust panic
(`expect` / `unwrap` on a failed operation) is modelled as `Option.none`;
a typed serde error is modelled as `Except.error`.
-/

/-- Smallest `i64` value, in nanoseconds: the lower bound of
`chrono::DateTime::timestamp_nanos_opt`. -/
def i64MinNanos : Int := -9223372036854775808

/-- Largest `i64` value, in nanoseconds: the upper bound of
`chrono::DateTime::timestamp_nanos_opt`. -/
def i64MaxNanos : Int := 9223372036854775807

/-- Number of distinct `u64` values, `2 ^ 64`, used for the `as u64` /
`as i64` reinterpreting casts. -/
def u64Count : Int := 18446744073709551616

/-- The Rust cast `nano as u64` on an `i64` value: reinterpretation
modulo `2 ^ 64`, yielding the unsigned representative. -/
def i64AsU64 (n : Int) : Nat := (n % u64Count).toNat

/-- The Rust cast `value as i64` on a `u64` value: values below `2 ^ 63`
are unchanged, larger ones wrap to negative. -/
def u64AsI64 (v : Nat) : Int :=
  if (v : Int) < 9223372036854775808 then (v : Int) else (v : Int) - u64Count

/-- The Instant-to-SystemTime block shared verbatim by
`Serialize for SerdeInstant` (serde_instant.rs lines 88-100) and
`rkyv::Serialize for SerdeInstant` (lines 238-250): with monotonic sample
`now` and wall sample `sys_now`,
`if now >= self.inner { let d = now - self.inner; sys_now - d }
 else { let d = self.inner - now; sys_now + d }`. -/
def instantToSystemTime (inner now sys_now : Int) : Int :=
  if now ≥ inner then
    let d := now - inner
    sys_now - d
  else
    let d := inner - now
    sys_now + d

/-- `chrono::DateTime::timestamp_nanos_opt`: `some` of the nanosecond count
when it fits in an `i64`, `none` otherwise. -/
def timestamp_nanos_opt (w : Int) : Option Int :=
  if i64MinNanos ≤ w ∧ w ≤ i64MaxNanos then some w else none

/-- `Serialize for SerdeInstant` (serde_instant.rs lines 83-107): translate
the instant through the current clock pair, take `timestamp_nanos_opt`,
turn `none` into the typed serde error `"time out of range"`, and emit the
nanosecond count cast to `u64`. -/
def serdeSerializeInstant (inner now sys_now : Int) : Except String Nat :=
  match timestamp_nanos_opt (instantToSystemTime inner now sys_now) with
  | none => Except.error "time out of range"
  | some nano => Except.ok (i64AsU64 nano)

/-- `rkyv::Serialize for SerdeInstant` (serde_instant.rs lines 232-256): the
same translation, but the `none` case of `timestamp_nanos_opt` goes through
`.expect("time out of range")`, which panics; the panic is modelled as
`none`. -/
def rkyvSerializeInstant (inner now sys_now : Int) : Option Nat :=
  match timestamp_nanos_opt (instantToSystemTime inner now sys_now) with
  | none => none
  | some nano => some (i64AsU64 nano)

/-- `SystemTime::duration_since`: `self.duration_since(earlier)` succeeds
with the nonnegative difference when `earlier <= self`, and fails
otherwise. -/
def duration_since (self earlier : Int) : Option Int :=
  if earlier ≤ self then some (self - earlier) else none

/-- `InstantVisitor::visit_u64` (serde_instant.rs lines 124-139): rebuild the
wall time from the `u64` (via `DateTime::from_timestamp_nanos(value as i64)`),
sample a fresh clock pair `(sys_now, now)`, and anchor to it:
`if system_time > sys_now { now + system_time.duration_since(sys_now).unwrap() }
 else { now - sys_now.duration_since(system_time).unwrap() }`.
Each `unwrap` panic is modelled as `none`. -/
def visit_u64 (value : Nat) (sys_now now : Int) : Option Int :=
  let system_time := u64AsI64 value
  if system_time > sys_now then
    (duration_since system_time sys_now).map (fun d => now + d)
  else
    (duration_since sys_now system_time).map (fun d => now - d)

/-- `rkyv::Deserialize for ArchivedSerdeInstant` (serde_instant.rs lines
258-277): textually the same reconstruction as `visit_u64`, reading the
`u64` out of the archived little-endian word via `to_native`. -/
def rkyvDeserializeInstant (value : Nat) (sys_now now : Int) : Option Int :=
  let system_time := u64AsI64 value
  if system_time > sys_now then
    (duration_since system_time sys_now).map (fun d => now + d)
  else
    (duration_since sys_now system_time).map (fun d => now - d)

/-! ### Fixed-layout validation of `ArchivedSerdeInstant` -/

/-- Failure taxonomy of the fixed-layout decode paths: a buffer shorter than
the fixed width, or a decoded ordinal outside its valid set. -/
inductive ArchiveError where
  | truncatedBufferError
  | malformedBufferError
deriving DecidableEq, Repr

/-- Modelled from the spec: `rkyv::primitive::ArchivedU64` accepts every
8-byte pattern — any 8-byte pattern is a valid unsigned integer, so its
`CheckBytes` never fails on content (the impl lives in the rkyv library, not
in this repository). -/
def archivedU64CheckBytes (_bytes : List (Fin 256)) : Except ArchiveError Unit :=
  Except.ok ()

/-- `ArchivedSerdeInstant::check_bytes` (serde_instant.rs lines 203-217):
delegates unchanged to `ArchivedU64`'s `CheckBytes` through the
`repr(transparent)` cast. -/
def archivedSerdeInstantCheckBytes (bytes : List (Fin 256)) : Except ArchiveError Unit :=
  archivedU64CheckBytes bytes

/-- Modelled from the spec: fixed-layout decoding "first validates the
buffer is exactly 8 bytes (reject with TruncatedBufferError otherwise), then
interprets the bytes directly" — the length gate is performed by the rkyv
access machinery, which is not part of this repository; the content check it
then runs is `archivedSerdeInstantCheckBytes` from the source. -/
def validateArchivedInstantBuffer (bytes : List (Fin 256)) : Except ArchiveError Unit :=
  if bytes.length = 8 then archivedSerdeInstantCheckBytes bytes
  else Except.error ArchiveError.truncatedBufferError

/-! ### The `RPCTypes` protocol-category tag -/

/-- `RPCTypes` (rpc_type.rs lines 9-18): the closed four-member tag of
protocol message categories. -/
inductive RPCTypes where
  | Vote
  | AppendEntries
  | InstallSnapshot
  | TransferLeader
deriving DecidableEq, Repr

/-- Modelled from the spec: the derived rkyv encoding of the fieldless enum
`RPCTypes` is its stable one-byte ordinal in declaration order. -/
def rkyvEncodeRPCTypes : RPCTypes → Fin 256
  | RPCTypes.Vote => 0
  | RPCTypes.AppendEntries => 1
  | RPCTypes.InstallSnapshot => 2
  | RPCTypes.TransferLeader => 3

/-- Modelled from the spec: decoding the one-byte rkyv ordinal; an ordinal
outside the valid set 0..3 fails with MalformedBufferError, returned as a
typed result. -/
def rkyvDecodeRPCTypes (b : Fin 256) : Except ArchiveError RPCTypes :=
  if b.val = 0 then Except.ok RPCTypes.Vote
  else if b.val = 1 then Except.ok RPCTypes.AppendEntries
  else if b.val = 2 then Except.ok RPCTypes.InstallSnapshot
  else if b.val = 3 then Except.ok RPCTypes.TransferLeader
  else Except.error ArchiveError.malformedBufferError

/-- Modelled from the spec: the derived conventional (serde) encoding of a
unit variant is its symbolic name. -/
def serdeEncodeRPCTypes : RPCTypes → String
  | RPCTypes.Vote => "Vote"
  | RPCTypes.AppendEntries => "AppendEntries"
  | RPCTypes.InstallSnapshot => "InstallSnapshot"
  | RPCTypes.TransferLeader => "TransferLeader"

/-- Modelled from the spec: conventional (serde) decoding by symbolic
variant name; an unknown name is a typed error. -/
def serdeDecodeRPCTypes (s : String) : Except String RPCTypes :=
  if s = "Vote" then Except.ok RPCTypes.Vote
  else if s = "AppendEntries" then Except.ok RPCTypes.AppendEntries
  else if s = "InstallSnapshot" then Except.ok RPCTypes.InstallSnapshot
  else if s = "TransferLeader" then Except.ok RPCTypes.TransferLeader
  else Except.error "unknown variant"

/-! ### The `BoxedErrorSource` error wrapper -/

/-- Model of `anyerror::AnyError`: an optional captured type name, a
formatted message, and an optional next cause (`Box<AnyError>` in Rust). -/
inductive AnyError where
  | mk (typ : Option String) (msg : String) (src : Option AnyError)

/-- `AnyError::error(msg)`: a text-only error with no type name and no cause
(modelled from the spec's error-capture capability, which produces a
normalized message without knowing the concrete type). -/
def AnyError.error (msg : String) : AnyError :=
  AnyError.mk none msg none

/-- The `source()` accessor of `AnyError`: the next cause, if any. -/
def AnyError.sourceOf : AnyError → Option AnyError
  | AnyError.mk _ _ s => s

/-- The `Display` text of an `AnyError`: optional `typ: ` head, the message,
then `, source: ` and the cause's text recursively (modelled from the
anyerror crate's display format; only `AnyError.error msg` displaying as
`msg` matters for the claims below). -/
def AnyError.display : AnyError → String
  | AnyError.mk typ msg none =>
    (match typ with
     | some t => t ++ ": " ++ msg
     | none => msg)
  | AnyError.mk typ msg (some s) =>
    (match typ with
     | some t => t ++ ": " ++ msg
     | none => msg) ++ " source: " ++ AnyError.display s

/-- A minimal model of an arbitrary Rust error value handed to
`from_error`: its display text and optional cause chain. -/
inductive DynError where
  | mk (displayText : String) (srcE : Option DynError)

/-- Modelled from the spec: `AnyError::new(e)` captures the error's
normalized message and its immediate cause chain. -/
def AnyError.new : DynError → AnyError
  | DynError.mk d none => AnyError.mk none d none
  | DynError.mk d (some s) => AnyError.mk none d (some (AnyError.new s))

/-- `BoxedErrorSource` (boxed_error_source.rs lines 18-24): a boxed
`AnyError`. -/
structure BoxedErrorSource where
  inner : AnyError

/-- `Display for BoxedErrorSource` (lines 66-70): delegates to `inner`. -/
def BoxedErrorSource.display (b : BoxedErrorSource) : String :=
  b.inner.display

/-- `Error::source for BoxedErrorSource` (lines 72-76): delegates to
`inner.source()`. -/
def BoxedErrorSource.errSource (b : BoxedErrorSource) : Option AnyError :=
  b.inner.sourceOf

/-- `ErrorSource::from_error` (lines 79-83): box `AnyError::new(error)`. -/
def BoxedErrorSource.from_error (e : DynError) : BoxedErrorSource :=
  ⟨AnyError.new e⟩

/-- `ErrorSource::from_string` (lines 85-89): box `AnyError::error(msg)`. -/
def BoxedErrorSource.from_string (msg : String) : BoxedErrorSource :=
  ⟨AnyError.error msg⟩

/-- `ErrorSource::has_backtrace` (lines 91-93):
`anyerror::backtrace_str().is_some()`.  The global `backtrace_str()` result
observable at the moment of the query is passed explicitly; the boxed value
itself is not consulted. -/
def BoxedErrorSource.has_backtrace (_b : BoxedErrorSource)
    (backtraceStrAtQuery : Option String) : Bool :=
  backtraceStrAtQuery.isSome

/-- `AnyErrorAsString::serialize_with` (boxed_error_source.rs lines 45-47):
the rkyv encoding of the boxed field is `field.to_string()`, archived as a
string. -/
def AnyErrorAsString.serialize_with (field : AnyError) : String :=
  field.display

/-- `AnyErrorAsString::deserialize_with` (boxed_error_source.rs lines
56-63): rebuild the boxed field as `AnyError::error(message)` from the
archived string. -/
def AnyErrorAsString.deserialize_with (message : String) : AnyError :=
  AnyError.error message

/-- Round trip of a `BoxedErrorSource` through the fixed-layout (rkyv)
format: the archived string is carried exactly (rkyv string archiving is
lossless), so the result is `deserialize_with` of `serialize_with`. -/
def rkyvRoundtripBoxed (b : BoxedErrorSource) : BoxedErrorSource :=
  ⟨AnyErrorAsString.deserialize_with (AnyErrorAsString.serialize_with b.inner)⟩

/-! ### Helper lemmas on the instant codec -/

/-- The shared translation block equals the spec's case formula. -/
lemma instantToSystemTime_eq_formula (inner now sys_now : Int) :
    instantToSystemTime inner now sys_now =
      if inner ≤ now then sys_now - (now - inner) else sys_now + (inner - now) := by
  simp only [instantToSystemTime, ge_iff_le]

/-- Both branches of the translation block compute the same affine value. -/
lemma instantToSystemTime_eq_linear (inner now sys_now : Int) :
    instantToSystemTime inner now sys_now = sys_now + inner - now := by
  rw [instantToSystemTime_eq_formula]
  split <;> ring

/-- Round trip of the reinterpreting casts on the `i64` range. -/
lemma u64AsI64_i64AsU64 (n : Int) (h1 : i64MinNanos ≤ n) (h2 : n ≤ i64MaxNanos) :
    u64AsI64 (i64AsU64 n) = n := by
  unfold u64AsI64 i64AsU64 u64Count
  unfold i64MinNanos at h1
  unfold i64MaxNanos at h2
  rw [Int.toNat_of_nonneg (Int.emod_nonneg n (by decide))]
  split <;> omega

/-- Closed form of `visit_u64`: the two guarded `unwrap`s always succeed and
the result is the case formula over the freshly sampled clock pair. -/
lemma visit_u64_eq (value : Nat) (sys_now now : Int) :
    visit_u64 value sys_now now =
      some (if u64AsI64 value ≤ sys_now
        then now - (sys_now - u64AsI64 value)
        else now + (u64AsI64 value - sys_now)) := by
  unfold visit_u64 duration_since
  by_cases h : u64AsI64 value ≤ sys_now
  · simp [h, not_lt.mpr h]
  · have h' : sys_now < u64AsI64 value := not_le.mp h
    simp [h, h', le_of_lt h']

/-- Closed form of the rkyv deserializer, identical to `visit_u64_eq`. -/
lemma rkyvDeserializeInstant_eq (value : Nat) (sys_now now : Int) :
    rkyvDeserializeInstant value sys_now now =
      some (if u64AsI64 value ≤ sys_now
        then now - (sys_now - u64AsI64 value)
        else now + (u64AsI64 value - sys_now)) :=
  visit_u64_eq value sys_now now

/-- The serde serializer expressed through the spec's translation formula. -/
lemma serdeSerializeInstant_eq (inner now sys_now : Int) :
    serdeSerializeInstant inner now sys_now =
      (timestamp_nanos_opt
        (if inner ≤ now then sys_now - (now - inner) else sys_now + (inner - now))).elim
        (Except.error "time out of range") (fun nano => Except.ok (i64AsU64 nano)) := by
  unfold serdeSerializeInstant
  rw [← instantToSystemTime_eq_formula]
  rcases h : timestamp_nanos_opt (instantToSystemTime inner now sys_now) <;> simp [h]

/-- The rkyv serializer expressed through the spec's translation formula. -/
lemma rkyvSerializeInstant_eq (inner now sys_now : Int) :
    rkyvSerializeInstant inner now sys_now =
      Option.map i64AsU64
        (timestamp_nanos_opt
          (if inner ≤ now then sys_now - (now - inner) else sys_now + (inner - now))) := by
  unfold rkyvSerializeInstant
  rw [← instantToSystemTime_eq_formula]
  rcases h : timestamp_nanos_opt (instantToSystemTime inner now sys_now) <;> simp [h]

/-! ### Claim theorems for the instant codec -/

/-- C1: at encode time both serializers translate the instant to the wall
time `W - (M - instant)` when `instant <= M` and `W + (instant - M)`
otherwise (then range-check and cast to `u64`); at decode time both
deserializers produce `M' - (W' - t)` when the encoded wall time `t` is not
after the fresh wall sample `W'`, and `M' + (t - W')` otherwise, computed
from the clock pair sampled at decode time only. -/
theorem serdeInstant_transcode_formula (inner now sys_now : Int) (value : Nat)
    (sysNow2 now2 : Int) :
    serdeSerializeInstant inner now sys_now =
      (timestamp_nanos_opt
        (if inner ≤ now then sys_now - (now - inner) else sys_now + (inner - now))).elim
        (Except.error "time out of range") (fun nano => Except.ok (i64AsU64 nano))
    ∧ rkyvSerializeInstant inner now sys_now =
      Option.map i64AsU64
        (timestamp_nanos_opt
          (if inner ≤ now then sys_now - (now - inner) else sys_now + (inner - now)))
    ∧ visit_u64 value sysNow2 now2 =
      some (if u64AsI64 value ≤ sysNow2
        then now2 - (sysNow2 - u64AsI64 value)
        else now2 + (u64AsI64 value - sysNow2))
    ∧ rkyvDeserializeInstant value sysNow2 now2 =
      some (if u64AsI64 value ≤ sysNow2
        then now2 - (sysNow2 - u64AsI64 value)
        else now2 + (u64AsI64 value - sysNow2)) :=
  ⟨serdeSerializeInstant_eq inner now sys_now,
   rkyvSerializeInstant_eq inner now sys_now,
   visit_u64_eq value sysNow2 now2,
   rkyvDeserializeInstant_eq value sysNow2 now2⟩

/-- C10: in both decode paths the two guarded `duration_since(...).unwrap()`
calls never panic: for every input `u64` value and every fresh clock pair
the decoder returns a value (`isSome`), so decoding is total with respect to
these unwraps. -/
theorem instant_decode_unwraps_never_panic (value : Nat) (sys_now now : Int) :
    (visit_u64 value sys_now now).isSome
    ∧ (rkyvDeserializeInstant value sys_now now).isSome := by
  rw [visit_u64_eq, rkyvDeserializeInstant_eq]
  exact ⟨rfl, rfl⟩

/-- C2 counterexample: the fixed-layout (rkyv) serializer does not return an
encode-time range failure as a typed result: at the concrete instant
`2 ^ 64` ns with both clocks at `0`, the translated wall time overflows the
`i64` nanosecond range and the serializer hits `.expect("time out of range")`,
i.e. it panics (modelled as `none`) instead of producing a typed error. -/
theorem rkyvSerializeInstant_panics_on_range_overflow :
    rkyvSerializeInstant 18446744073709551616 0 0 = none := by decide

/-- C2 amended: when the translated wall time is out of the `i64` nanosecond
range, the conventional (serde) serializer returns the typed error
`"time out of range"` to its caller, while the fixed-layout (rkyv)
serializer panics via `expect` (modelled as `none`) instead of returning a
typed result; neither path retries. -/
theorem instant_encode_range_failure_behavior (inner now sys_now : Int)
    (h : timestamp_nanos_opt (instantToSystemTime inner now sys_now) = none) :
    serdeSerializeInstant inner now sys_now = Except.error "time out of range"
    ∧ rkyvSerializeInstant inner now sys_now = none := by
  unfold serdeSerializeInstant rkyvSerializeInstant
  rw [h]
  exact ⟨rfl, rfl⟩

/-- Witness for `instant_encode_range_failure_behavior` at the concrete
out-of-range input `(2 ^ 64, 0, 0)`. -/
theorem instant_encode_range_failure_behavior_witness :
    serdeSerializeInstant 18446744073709551616 0 0 = Except.error "time out of range"
    ∧ rkyvSerializeInstant 18446744073709551616 0 0 = none :=
  instant_encode_range_failure_behavior 18446744073709551616 0 0 (by decide)

/-- C4: when the translated wall time is representable, encoding an instant
in either wire format and decoding with a fresh clock pair yields a value in
both formats; if the monotonic and wall clocks advanced consistently (their
advances differ by less than 5 ms) the decoded instant is within 5 ms of the
original, and with identical clock samples at encode and decode the round
trip reproduces the instant exactly (nanosecond model, so nanosecond
truncation is the identity). -/
theorem instant_roundtrip_within_5ms (inner now sys_now now2 sysNow2 : Int)
    (h1 : i64MinNanos ≤ instantToSystemTime inner now sys_now)
    (h2 : instantToSystemTime inner now sys_now ≤ i64MaxNanos) :
    ∃ v j,
      serdeSerializeInstant inner now sys_now = Except.ok v
      ∧ rkyvSerializeInstant inner now sys_now = some v
      ∧ visit_u64 v sysNow2 now2 = some j
      ∧ rkyvDeserializeInstant v sysNow2 now2 = some j
      ∧ (((now2 - now) - (sysNow2 - sys_now)).natAbs < 5000000 →
          (j - inner).natAbs < 5000000)
      ∧ (sysNow2 = sys_now → now2 = now → j = inner) := by
  set wall := instantToSystemTime inner now sys_now with hwall
  have hopt : timestamp_nanos_opt wall = some wall := by
    unfold timestamp_nanos_opt
    simp [h1, h2]
  refine ⟨i64AsU64 wall,
    if u64AsI64 (i64AsU64 wall) ≤ sysNow2
      then now2 - (sysNow2 - u64AsI64 (i64AsU64 wall))
      else now2 + (u64AsI64 (i64AsU64 wall) - sysNow2),
    ?_, ?_, visit_u64_eq _ _ _, rkyvDeserializeInstant_eq _ _ _, ?_, ?_⟩
  · unfold serdeSerializeInstant
    rw [← hwall, hopt]
  · unfold rkyvSerializeInstant
    rw [← hwall, hopt]
  · intro hjit
    rw [u64AsI64_i64AsU64 wall h1 h2]
    have hlin : wall = sys_now + inner - now := instantToSystemTime_eq_linear inner now sys_now
    split <;> omega
  · intro hs hn
    rw [u64AsI64_i64AsU64 wall h1 h2]
    have hlin : wall = sys_now + inner - now := instantToSystemTime_eq_linear inner now sys_now
    split <;> omega

/-- Witness for `instant_roundtrip_within_5ms` at the concrete clock
scenario `inner = 5`, `now = 10`, `sys_now = 100`, with the decode pair
equal to the encode pair. -/
theorem instant_roundtrip_within_5ms_witness :
    ∃ v j,
      serdeSerializeInstant 5 10 100 = Except.ok v
      ∧ rkyvSerializeInstant 5 10 100 = some v
      ∧ visit_u64 v 100 10 = some j
      ∧ rkyvDeserializeInstant v 100 10 = some j
      ∧ (((10 - 10 : Int) - (100 - 100)).natAbs < 5000000 →
          (j - 5).natAbs < 5000000)
      ∧ ((100 : Int) = 100 → (10 : Int) = 10 → j = 5) :=
  instant_roundtrip_within_5ms 5 10 100 10 100 (by decide) (by decide)

/-- C3 counterexample: `has_backtrace` does not reflect any state fixed at
construction: on the one concrete value `from_string "x"`, a query made
while the global `backtrace_str()` observably yields a backtrace returns
`true`, and a query made while it observably yields nothing returns `false`
— two calls on the same value disagree. -/
theorem has_backtrace_two_queries_disagree :
    BoxedErrorSource.has_backtrace (BoxedErrorSource.from_string "x") (some "bt")
      ≠ BoxedErrorSource.has_backtrace (BoxedErrorSource.from_string "x") none := by
  decide

/-- C3 amended: `has_backtrace()` returns the process-wide flag's observable
state at the moment of the query (whether `anyerror::backtrace_str()`
currently returns a value), independent of the value it is called on and of
anything recorded at construction; two calls on the same value agree exactly
when the flag's observable state is the same at both queries. -/
theorem has_backtrace_reflects_query_time (b c : BoxedErrorSource)
    (q : Option String) :
    BoxedErrorSource.has_backtrace b q = q.isSome
    ∧ BoxedErrorSource.has_backtrace b q = BoxedErrorSource.has_backtrace c q :=
  ⟨rfl, rfl⟩

/-- C5: round-tripping any `BoxedErrorSource` (in particular `from_error e`
for every error value `e`) through the fixed-layout (rkyv) format preserves
the display text but loses the cause chain: the result's `source()` is
`none`; concretely, `from_string "disk full"` round trips to a value
displaying `"disk full"`. -/
theorem boxedError_rkyv_roundtrip_lossy (b : BoxedErrorSource) (e : DynError) :
    (rkyvRoundtripBoxed b).display = b.display
    ∧ (rkyvRoundtripBoxed b).errSource = none
    ∧ (rkyvRoundtripBoxed (BoxedErrorSource.from_error e)).display
        = (BoxedErrorSource.from_error e).display
    ∧ (rkyvRoundtripBoxed (BoxedErrorSource.from_error e)).errSource = none
    ∧ (rkyvRoundtripBoxed (BoxedErrorSource.from_string "disk full")).display
        = "disk full" :=
  ⟨rfl, rfl, rfl, rfl, rfl⟩

/-- C6: validating a buffer shorter than 8 bytes against the fixed-layout
Instant form fails with TruncatedBufferError (shown at the concrete 7-byte
buffer), and validation of every exactly-8-byte buffer succeeds — the
content check accepts every byte pattern, so validation fails only on
truncated input. -/
theorem archivedInstant_validation_truncation_only :
    validateArchivedInstantBuffer (List.replicate 7 (0 : Fin 256))
      = Except.error ArchiveError.truncatedBufferError
    ∧ ∀ bytes : List (Fin 256), bytes.length = 8 →
        validateArchivedInstantBuffer bytes = Except.ok () := by
  constructor
  · rfl
  · intro bytes h
    unfold validateArchivedInstantBuffer
    rw [h]
    rfl

/-- Witness for `archivedInstant_validation_truncation_only` at the concrete
8-byte all-zero buffer. -/
theorem archivedInstant_validation_truncation_only_witness :
    validateArchivedInstantBuffer (List.replicate 8 (0 : Fin 256)) = Except.ok () :=
  archivedInstant_validation_truncation_only.2 (List.replicate 8 (0 : Fin 256)) (by decide)

/-- C7: for each of the four `RPCTypes` members and both wire formats,
encoding the member and decoding the result returns the identical member. -/
theorem rpcTypes_roundtrip_both_formats (r : RPCTypes) :
    rkyvDecodeRPCTypes (rkyvEncodeRPCTypes r) = Except.ok r
    ∧ serdeDecodeRPCTypes (serdeEncodeRPCTypes r) = Except.ok r := by
  cases r <;> exact ⟨rfl, rfl⟩

/-- C8: decoding an `RPCTypes` ordinal from the fixed-layout format fails
with MalformedBufferError for every one-byte value outside 0..3, returned as
a typed result. -/
theorem rpcTypes_decode_out_of_range_malformed (b : Fin 256) (h : 4 ≤ b.val) :
    rkyvDecodeRPCTypes b = Except.error ArchiveError.malformedBufferError := by
  unfold rkyvDecodeRPCTypes
  have h0 : ¬ b.val = 0 := by omega
  have h1 : ¬ b.val = 1 := by omega
  have h2 : ¬ b.val = 2 := by omega
  have h3 : ¬ b.val = 3 := by omega
  simp [h0, h1, h2, h3]

/-- Witness for `rpcTypes_decode_out_of_range_malformed` at the concrete
out-of-range ordinal 4. -/
theorem rpcTypes_decode_out_of_range_malformed_witness :
    rkyvDecodeRPCTypes (4 : Fin 256) = Except.error ArchiveError.malformedBufferError :=
  rpcTypes_decode_out_of_range_malformed (4 : Fin 256) (by decide)
